import Mathlib

/-!
Verification of `src/scanpy/external/pl.py` (plotting wrappers for external
tools) against its natural-language specification.

The Python module is shallowly embedded: the annotated-data container
(`AnnData`) becomes a structure of association lists, matplotlib side effects
(figure creation, scatter calls, colorbars) are recorded in an explicit trace,
Python exceptions become an error type carried in `Except`, and the dynamic
color argument of `sam` becomes a small sum type mirroring the `isinstance`
dispatch in the source.
-/

/-- An element of a per-row observation / color array: either a Python string
(`str` / `np.str_`) or a number.  Mirrors the only distinction line 220 of the
source makes (`isinstance(c[0], str | np.str_)`). -/
inductive ColorElem
  | s (v : String)
  | n (v : Int)
deriving DecidableEq, Repr

/-- Whether an element is a Python string instance. -/
def elemIsStr : ColorElem → Bool
  | ColorElem.s _ => true
  | ColorElem.n _ => false

/-- A value stored in the container's free-form `uns` mapping: either a plain
string (e.g. the `harmony_timepoint_var` metadata entry) or a tabular result
(e.g. the wishbone trend tables, a data frame modelled as named columns). -/
inductive UnsVal
  | str (v : String)
  | table (t : List (String × List Int))
deriving DecidableEq, Repr

/-- The annotated-data container (`anndata.AnnData`) as far as this module
touches it: `obsm` holds keyed 2D coordinate arrays, `obs` holds keyed per-row
attribute columns, `uns` is the free-form auxiliary mapping. -/
structure AnnData where
  obsm : List (String × List (Int × Int))
  obs : List (String × List ColorElem)
  uns : List (String × UnsVal)
deriving DecidableEq, Repr

/-- Python exceptions raised along the modelled paths.  A `valueError` records
as `causeKey` the key of the `KeyError` it was raised `from`, when there is
one (the `raise ... from e` chain in the source). -/
inductive PyError
  | keyError (key : String)
  | valueError (msg : String) (causeKey : Option String)
  | typeError (msg : String)
  | indexError (msg : String)
deriving DecidableEq, Repr

/-- The dynamic `c` argument of `sam` after Python's view of it: `None`, a
`str`, an `np.ndarray`/`list` of elements, a tuple of numbers (array-like for
indexing but not an `ndarray | list`), or a bare scalar number. -/
inductive CVal
  | pynone
  | str (v : String)
  | arr (v : List ColorElem)
  | tup (v : List Int)
  | num (v : Int)
deriving DecidableEq, Repr

/-- Python `c[0]`: first character of a string (a `str` again), first element
of an array/list, first component of a tuple; raises `IndexError` on empty
sequences and `TypeError` on a non-subscriptable scalar. -/
def getitem0 : CVal → Except PyError ColorElem
  | CVal.pynone => Except.error (PyError.typeError "NoneType object is not subscriptable")
  | CVal.str v =>
    match v.data with
    | [] => Except.error (PyError.indexError "string index out of range")
    | ch :: _ => Except.ok (ColorElem.s (String.mk [ch]))
  | CVal.arr v =>
    match v with
    | [] => Except.error (PyError.indexError "index 0 is out of bounds")
    | x :: _ => Except.ok x
  | CVal.tup v =>
    match v with
    | [] => Except.error (PyError.indexError "tuple index out of range")
    | x :: _ => Except.ok (ColorElem.n x)
  | CVal.num _ => Except.error (PyError.typeError "object is not subscriptable")

/-- Python `isinstance(c, np.ndarray | list)`. -/
def isArrOrList : CVal → Bool
  | CVal.arr _ => true
  | _ => false

/-- Lines 216-218 of the source: a string color spec is looked up in
`adata.obs`; a `KeyError` is suppressed by `contextlib.suppress`, leaving the
string itself in place. -/
def resolveC (adata : AnnData) (c : CVal) : CVal :=
  match c with
  | CVal.str name =>
    match List.lookup name adata.obs with
    | some col => CVal.arr col
    | none => CVal.str name
  | other => other

/-- Index of the first occurrence of `x` in `l` (length of `l` if absent). -/
def firstIdx {α : Type} [DecidableEq α] (l : List α) (x : α) : Nat :=
  match l with
  | [] => 0
  | y :: ys => if y = x then 0 else firstIdx ys x + 1

/-- Distinct values of a list in first-seen order, skipping values already in
`seen`; this is `pandas.Series.unique` order. -/
def uniqueFirstSeenAux {α : Type} [DecidableEq α] (seen : List α) : List α → List α
  | [] => []
  | x :: xs =>
    if x ∈ seen then uniqueFirstSeenAux seen xs
    else x :: uniqueFirstSeenAux (x :: seen) xs

/-- Distinct values of a list in first-seen order (`pandas.Series.unique`). -/
def uniqueFirstSeen {α : Type} [DecidableEq α] (l : List α) : List α :=
  uniqueFirstSeenAux [] l

/-- Insert `x` into `l` in front of the first element that does not compare
below it (insertion step of insertion sort). -/
def insertLe {α : Type} (le : α → α → Bool) (x : α) : List α → List α
  | [] => [x]
  | y :: ys => if le x y then x :: y :: ys else y :: insertLe le x ys

/-- Insertion sort by the comparator `le`. -/
def sortLe {α : Type} (le : α → α → Bool) : List α → List α
  | [] => []
  | x :: xs => insertLe le x (sortLe le xs)

/-- `numpy.unique` values: the distinct elements, sorted by the given
comparator (`np.unique` returns the sorted unique values). -/
def npUnique {α : Type} [DecidableEq α] (le : α → α → Bool) (l : List α) : List α :=
  sortLe le (uniqueFirstSeen l)

/-- Ordering on color elements used by `np.unique` over a string/number array
(numbers before strings, each kind by its own order). -/
def ColorElem.le : ColorElem → ColorElem → Bool
  | ColorElem.n a, ColorElem.n b => decide (a ≤ b)
  | ColorElem.n _, ColorElem.s _ => true
  | ColorElem.s _, ColorElem.n _ => false
  | ColorElem.s a, ColorElem.s b => decide (a ≤ b)

/-- Modelled from the spec: the external categorical encoder
`samalg.utilities.convert_annotations` (the `samalg` package is an external
dependency, not part of this repository).  Per the spec (section 4.3):
"compute sorted-unique values, map each row to the index of its unique
value". -/
def convert_annotations (c : List ColorElem) : List Nat :=
  let u := npUnique ColorElem.le c
  c.map (firstIdx u)

/-- `np.unique(i, return_index=True)` on the integer code array: the sorted
unique codes together with, for each, the index of its first occurrence in
`i`. -/
def npUniqueWithIndex (l : List Nat) : List Nat × List Nat :=
  let u := npUnique (fun a b => decide (a ≤ b)) l
  (u, u.map (firstIdx l))

/-- What `axes.scatter` received as its color argument. -/
inductive ScatterColor
  | noColor
  | codes (i : List Nat)
  | passthrough (v : CVal)
deriving DecidableEq, Repr

/-- One call to the scatter primitive: the coordinates and the color. -/
structure ScatterCall where
  coords : List (Int × Int)
  color : ScatterColor
deriving DecidableEq, Repr

/-- A colorbar drawn by `sam`: the categorical one carries explicit ticks and
tick labels (lines 236-238), the plain one none (line 256). -/
inductive CbarSpec
  | categorical (ticks : List Nat) (labels : List ColorElem)
  | plain
deriving DecidableEq, Repr

/-- Matplotlib side effects of one `sam` call, in order of occurrence. -/
structure Trace where
  figuresCreated : Nat
  scatters : List ScatterCall
  colorbars : List CbarSpec
deriving DecidableEq, Repr

/-- The axes object `sam` draws on: the caller-supplied one or a fresh one
from `plt.figure(); plt.gca()`. -/
inductive AxesUsed
  | caller (id : Nat)
  | fresh
deriving DecidableEq, Repr

/-- The `projection` argument of `sam`: a key into `adata.obsm` or a literal
coordinate array. -/
inductive ProjArg
  | key (k : String)
  | arr (dt : List (Int × Int))
deriving DecidableEq, Repr

/-- Lines 197-204 of the source: a string projection is looked up in
`adata.obsm`; the container's `KeyError` is caught and re-raised as a
`ValueError` with the `KeyError` as cause. -/
def resolveProjection (adata : AnnData) (projection : ProjArg) :
    Except PyError (List (Int × Int)) :=
  match projection with
  | ProjArg.key k =>
    match List.lookup k adata.obsm with
    | some dt => Except.ok dt
    | none =>
      Except.error (PyError.valueError
        "Please create a projection first using run_umap or run_tsne"
        (some k))
  | ProjArg.arr dt => Except.ok dt

/-- Number of new figures created by the axes setup (lines 206-208): one when
no axes were supplied, none otherwise. -/
def figsOf : Option Nat → Nat
  | some _ => 0
  | none => 1

/-- The axes used (lines 206-208): the supplied ones, else the fresh
`plt.gca()` of the new figure. -/
def axesOf : Option Nat → AxesUsed
  | some a => AxesUsed.caller a
  | none => AxesUsed.fresh

/-- `sam` (lines 166-257 of the source): resolve the projection, set up axes,
then dispatch on the color value: `None` gives an uncolored scatter;
a string is resolved through `adata.obs` with the lookup failure suppressed;
a string-typed array goes through categorical encoding with an optional
tick-labelled colorbar; anything else is passed through, with the colorbar
forced off when the value is not an `ndarray`/`list`.  Returns the effect
trace together with the returned axes or the raised exception. -/
def sam (adata : AnnData) (projection : ProjArg) (c : CVal)
    (axes : Option Nat) (colorbar : Bool) : Trace × Except PyError AxesUsed :=
  match resolveProjection adata projection with
  | Except.error e => (⟨0, [], []⟩, Except.error e)
  | Except.ok dt =>
    let figs := figsOf axes
    let ax := axesOf axes
    match c with
    | CVal.pynone =>
      (⟨figs, [⟨dt, ScatterColor.noColor⟩], []⟩, Except.ok ax)
    | cArg =>
      let c1 := resolveC adata cArg
      match getitem0 c1 with
      | Except.error e => (⟨figs, [], []⟩, Except.error e)
      | Except.ok e0 =>
        match c1 with
        | CVal.arr l =>
          if elemIsStr e0 then
            let i := convert_annotations l
            let ui := (npUniqueWithIndex i).1
            let ai := (npUniqueWithIndex i).2
            let cbs := if colorbar then
                [CbarSpec.categorical ui (ai.map (fun j => l.getD j (ColorElem.s "")))]
              else []
            (⟨figs, [⟨dt, ScatterColor.codes i⟩], cbs⟩, Except.ok ax)
          else
            (⟨figs, [⟨dt, ScatterColor.passthrough (CVal.arr l)⟩],
              if colorbar then [CbarSpec.plain] else []⟩, Except.ok ax)
        | cOther =>
          (⟨figs, [⟨dt, ScatterColor.passthrough cOther⟩], []⟩, Except.ok ax)

/-- One panel of the multi-panel time-series renderer: the arguments the loop
body (lines 146-157) passes to the embedding primitive for one time point,
plus the `set_axis_off` applied to the returned axes. -/
structure PanelCall where
  basis : String
  color : String
  groups : ColorElem
  title : ColorElem
  showArg : Bool
  axId : Nat
  legendLoc : String
  axisOff : Bool
deriving DecidableEq, Repr

/-- What `harmony_timeseries` returns on success: the figure, nothing, or the
array of `n` axes from `plt.subplots(1, n)`. -/
inductive HarmonyRet
  | figure
  | nothing
  | axesArr (n : Nat)
deriving DecidableEq, Repr

/-- `harmony_timeseries` (lines 124-162): read the time-point variable name
from `adata.uns`, take the distinct values of that `obs` column in first-seen
order, allocate one subplot per value, and render one embedding panel per
value with `groups`/`title` set to the value, the legend suppressed and the
axes turned off.  `plt.subplots(1, n)` with `n = 1` yields a bare axes object
(matplotlib squeezes), so `axes[i]` in the loop raises `TypeError`; `n = 0`
is rejected by matplotlib's grid allocation.  The tri-state display contract
is applied at the end (lines 158-162). -/
def harmony_timeseries (adata : AnnData) (s return_fig : Bool) :
    Except PyError (List PanelCall × HarmonyRet) :=
  match List.lookup "harmony_timepoint_var" adata.uns with
  | none => Except.error (PyError.keyError "harmony_timepoint_var")
  | some (UnsVal.table _) => Except.error (PyError.typeError "unhashable key")
  | some (UnsVal.str tpName) =>
    match List.lookup tpName adata.obs with
    | none => Except.error (PyError.keyError tpName)
    | some col =>
      let tps := uniqueFirstSeen col
      if tps.length = 0 then
        Except.error (PyError.valueError
          "Number of columns must be a positive integer" none)
      else if tps.length = 1 then
        Except.error (PyError.typeError "Axes object is not subscriptable")
      else
        let panels := tps.enum.map (fun p =>
          PanelCall.mk "harmony" tpName p.2 p.2 false p.1 "none" true)
        let ret := if return_fig then HarmonyRet.figure
          else if s then HarmonyRet.nothing
          else HarmonyRet.axesArr tps.length
        Except.ok (panels, ret)

/-- The three tables returned by the external wishbone object's
`plot_marker_trajectory` (its `ret_values` dictionary). -/
structure TrajTables where
  trunk : List (String × List Int)
  branch1 : List (String × List Int)
  branch2 : List (String × List Int)
deriving DecidableEq, Repr

/-- What `wishbone_marker_trajectory` returns per the display contract. -/
inductive WbRet
  | figure
  | nothing
  | axes
deriving DecidableEq, Repr

/-- Python `adata.uns[k] = v` on the association-list model: replace the
binding if the key exists, append it otherwise. -/
def setUns (m : List (String × UnsVal)) (k : String) (v : UnsVal) :
    List (String × UnsVal) :=
  match m with
  | [] => [(k, v)]
  | (k', v') :: rest => if k' = k then (k, v) :: rest else (k', v') :: setUns rest k v

/-- The observable outcome of one `wishbone_marker_trajectory` call: the
updated container, the figure size used, whether the save-or-show helper ran,
and the display-contract result. -/
structure WbOutcome where
  adata : AnnData
  figsize : Rat × Rat
  savedOrShown : Bool
  ret : WbRet
deriving DecidableEq, Repr

/-- `wishbone_marker_trajectory` (lines 272-357).  Modelled from the spec for
its two delegates: `_anndata_to_wishbone` (repository code outside the given
sources) and the external wishbone object's `plot_marker_trajectory` — per
the spec (4.4) trend computation is delegated entirely to the external
trajectory object, which returns three tables plus the figure/axes and does
not itself mutate the container; that delegate result is therefore taken as
the input parameter `delegate`.  The function sizes the figure (2 x and
0.75 x the marker count unless explicit), writes the three tables into
`adata.uns`, runs the shared save-or-show helper, and applies the tri-state
display contract (lines 353-357). -/
def wishbone_marker_trajectory (adata : AnnData) (markers : List String)
    (figsize : Option (Rat × Rat)) (return_fig s : Bool)
    (_ax : Option Nat) (delegate : TrajTables) : WbOutcome :=
  let wh : Rat × Rat :=
    match figsize with
    | none => (2 * (markers.length : Rat), 3 / 4 * (markers.length : Rat))
    | some p => p
  let u1 := setUns adata.uns "trunk_wishbone" (UnsVal.table delegate.trunk)
  let u2 := setUns u1 "branch1_wishbone" (UnsVal.table delegate.branch1)
  let u3 := setUns u2 "branch2_wishbone" (UnsVal.table delegate.branch2)
  let post : AnnData := AnnData.mk adata.obsm adata.obs u3
  let ret := if return_fig then WbRet.figure
    else if s then WbRet.nothing
    else WbRet.axes
  WbOutcome.mk post wh true ret

/-! Helper lemmas about the list operations used by the embedding. -/

theorem mem_uniqueFirstSeenAux {α : Type} [DecidableEq α] (l : List α) (seen : List α)
    (a : α) : a ∈ uniqueFirstSeenAux seen l ↔ a ∈ l ∧ a ∉ seen := by
  induction l generalizing seen with
  | nil => simp [uniqueFirstSeenAux]
  | cons x xs ih =>
    simp only [uniqueFirstSeenAux]
    by_cases hx : x ∈ seen
    · rw [if_pos hx, ih]
      by_cases hax : a = x
      · subst hax
        simp [hx]
      · simp [hax]
    · rw [if_neg hx]
      simp only [List.mem_cons, ih]
      by_cases hax : a = x
      · subst hax
        simp [hx]
      · simp [hax]

theorem nodup_uniqueFirstSeenAux {α : Type} [DecidableEq α] (l seen : List α) :
    (uniqueFirstSeenAux seen l).Nodup := by
  induction l generalizing seen with
  | nil => simp [uniqueFirstSeenAux]
  | cons x xs ih =>
    simp only [uniqueFirstSeenAux]
    by_cases hx : x ∈ seen
    · rw [if_pos hx]
      exact ih seen
    · rw [if_neg hx, List.nodup_cons]
      refine ⟨fun hmem => ?_, ih (x :: seen)⟩
      rw [mem_uniqueFirstSeenAux] at hmem
      exact hmem.2 (List.mem_cons_self x seen)

theorem sublist_uniqueFirstSeenAux {α : Type} [DecidableEq α] (l seen : List α) :
    (uniqueFirstSeenAux seen l).Sublist l := by
  induction l generalizing seen with
  | nil => simp [uniqueFirstSeenAux]
  | cons x xs ih =>
    simp only [uniqueFirstSeenAux]
    by_cases hx : x ∈ seen
    · rw [if_pos hx]
      exact (ih seen).cons x
    · rw [if_neg hx]
      exact (ih (x :: seen)).cons₂ x

theorem mem_uniqueFirstSeen {α : Type} [DecidableEq α] (l : List α) (a : α) :
    a ∈ uniqueFirstSeen l ↔ a ∈ l := by
  simp [uniqueFirstSeen, mem_uniqueFirstSeenAux]

theorem nodup_uniqueFirstSeen {α : Type} [DecidableEq α] (l : List α) :
    (uniqueFirstSeen l).Nodup :=
  nodup_uniqueFirstSeenAux l []

theorem sublist_uniqueFirstSeen {α : Type} [DecidableEq α] (l : List α) :
    (uniqueFirstSeen l).Sublist l :=
  sublist_uniqueFirstSeenAux l []

theorem perm_insertLe {α : Type} (le : α → α → Bool) (x : α) (l : List α) :
    (insertLe le x l).Perm (x :: l) := by
  induction l with
  | nil => exact List.Perm.refl _
  | cons y ys ih =>
    simp only [insertLe]
    split
    · exact List.Perm.refl _
    · exact (List.Perm.cons y ih).trans (List.Perm.swap x y ys)

theorem perm_sortLe {α : Type} (le : α → α → Bool) (l : List α) :
    (sortLe le l).Perm l := by
  induction l with
  | nil => exact List.Perm.refl _
  | cons x xs ih =>
    exact (perm_insertLe le x (sortLe le xs)).trans (List.Perm.cons x ih)

theorem mem_npUnique {α : Type} [DecidableEq α] (le : α → α → Bool) (l : List α) (a : α) :
    a ∈ npUnique le l ↔ a ∈ l := by
  unfold npUnique
  rw [(perm_sortLe le (uniqueFirstSeen l)).mem_iff, mem_uniqueFirstSeen]

theorem nodup_npUnique {α : Type} [DecidableEq α] (le : α → α → Bool) (l : List α) :
    (npUnique le l).Nodup := by
  unfold npUnique
  rw [(perm_sortLe le (uniqueFirstSeen l)).nodup_iff]
  exact nodup_uniqueFirstSeen l

theorem firstIdx_lt_length {α : Type} [DecidableEq α] {l : List α} {x : α} (h : x ∈ l) :
    firstIdx l x < l.length := by
  induction l with
  | nil => simp at h
  | cons y ys ih =>
    simp only [firstIdx]
    by_cases hy : y = x
    · simp [hy]
    · rw [if_neg hy]
      have hx : x ∈ ys := by
        rcases List.mem_cons.mp h with h1 | h1
        · exact absurd h1.symm hy
        · exact h1
      simpa [Nat.succ_lt_succ_iff] using ih hx

theorem getD_firstIdx {α : Type} [DecidableEq α] {l : List α} {x : α} (h : x ∈ l)
    (d : α) : l.getD (firstIdx l x) d = x := by
  induction l with
  | nil => simp at h
  | cons y ys ih =>
    simp only [firstIdx]
    by_cases hy : y = x
    · simp [hy]
    · rw [if_neg hy, List.getD_cons_succ]
      apply ih
      rcases List.mem_cons.mp h with h1 | h1
      · exact absurd h1.symm hy
      · exact h1

theorem getD_ne_of_lt_firstIdx {α : Type} [DecidableEq α] {l : List α} {x : α} (d : α)
    {j : Nat} (hj : j < firstIdx l x) : l.getD j d ≠ x := by
  induction l generalizing j with
  | nil => simp [firstIdx] at hj
  | cons y ys ih =>
    simp only [firstIdx] at hj
    by_cases hy : y = x
    · rw [if_pos hy] at hj
      omega
    · rw [if_neg hy] at hj
      cases j with
      | zero => simpa using hy
      | succ j => 
        rw [List.getD_cons_succ]
        exact ih (Nat.lt_of_succ_lt_succ hj)

theorem getD_map_of_lt {α β : Type} (f : α → β) (l : List α) {k : Nat}
    (hk : k < l.length) (d : β) (d' : α) : (l.map f).getD k d = f (l.getD k d') := by
  induction l generalizing k with
  | nil => simp at hk
  | cons y ys ih =>
    cases k with
    | zero => simp
    | succ k =>
      simp only [List.map_cons, List.getD_cons_succ]
      exact ih (Nat.lt_of_succ_lt_succ (by simpa using hk)) 

theorem lookup_setUns_self (m : List (String × UnsVal)) (k : String) (v : UnsVal) :
    List.lookup k (setUns m k v) = some v := by
  induction m with
  | nil => simp [setUns, List.lookup]
  | cons p rest ih =>
    obtain ⟨k', v'⟩ := p
    simp only [setUns]
    by_cases h : k' = k
    · rw [if_pos h]
      simp [List.lookup]
    · rw [if_neg h]
      have hbeq : (k == k') = false :=
        beq_eq_false_iff_ne.mpr (fun hh => h hh.symm)
      simp [List.lookup, hbeq, ih]

theorem lookup_setUns_ne (m : List (String × UnsVal)) (k k' : String) (v : UnsVal)
    (h : k' ≠ k) : List.lookup k' (setUns m k v) = List.lookup k' m := by
  induction m with
  | nil =>
    have hbeq : (k' == k) = false := by simpa using h
    simp [setUns, List.lookup, hbeq]
  | cons p rest ih =>
    obtain ⟨k0, v0⟩ := p
    simp only [setUns]
    by_cases h0 : k0 = k
    · rw [if_pos h0]
      have hbeq : (k' == k) = false := by simpa using h
      have hbeq0 : (k' == k0) = false :=
        beq_eq_false_iff_ne.mpr (fun hh => h (hh.trans h0))
      simp [List.lookup, hbeq, hbeq0, h0]
    · rw [if_neg h0]
      simp [List.lookup, ih]

/-! Claim theorems. -/

/-- C3 counterexample: with an empty container and the absent embedding key
`"X_umap"`, the `sam` call does NOT fail with the container's own lookup
failure (`KeyError "X_umap"`): the module catches it and re-raises a
`ValueError` of its own (with the `KeyError` as cause), so the claim that the
failure is "not caught or wrapped by this module" is false on the code. -/
theorem c3_counterexample_wrapped_lookup :
    (sam (AnnData.mk [] [] []) (ProjArg.key "X_umap") CVal.pynone none true).2
        = Except.error (PyError.valueError
            "Please create a projection first using run_umap or run_tsne"
            (some "X_umap")) ∧
      (sam (AnnData.mk [] [] []) (ProjArg.key "X_umap") CVal.pynone none true).2
        ≠ Except.error (PyError.keyError "X_umap") :=
  ⟨rfl, by simp [sam, resolveProjection, List.lookup]⟩

/-- C3 (amended): for every container and every projection key absent from
its embeddings namespace, `sam` fails with a `ValueError` raised by the
module itself, wrapping the container's `KeyError` as its cause, and the
failing call creates no figure and draws nothing. -/
theorem c3_missing_projection_value_error
    (adata : AnnData) (k : String) (c : CVal) (a : Option Nat) (cb : Bool)
    (h : List.lookup k adata.obsm = none) :
    sam adata (ProjArg.key k) c a cb
      = (Trace.mk 0 [] [], Except.error (PyError.valueError
          "Please create a projection first using run_umap or run_tsne"
          (some k))) := by
  simp [sam, resolveProjection, h]

/-- C3 witness: the amended statement evaluated at a concrete empty container
and the key `"X_umap"`. -/
theorem c3_missing_projection_value_error_witness :
    List.lookup "X_umap" (AnnData.mk [] [] []).obsm = none ∧
      sam (AnnData.mk [] [] []) (ProjArg.key "X_umap") (CVal.str "red") none false
        = (Trace.mk 0 [] [], Except.error (PyError.valueError
            "Please create a projection first using run_umap or run_tsne"
            (some "X_umap"))) :=
  ⟨rfl, c3_missing_projection_value_error (AnnData.mk [] [] []) "X_umap"
    (CVal.str "red") none false rfl⟩

/-- C9: a `wishbone_marker_trajectory` call writes exactly the three tables
returned by the delegate under `trunk_wishbone`, `branch1_wishbone` and
`branch2_wishbone` in the container's auxiliary mapping; every other key of
the auxiliary mapping is unchanged, no existing key is removed, and the
`obs`/`obsm` state of the container is untouched. -/
theorem c9_wishbone_uns_writes
    (adata : AnnData) (markers : List String) (fs : Option (Rat × Rat))
    (rf s : Bool) (ax : Option Nat) (del : TrajTables) :
    List.lookup "trunk_wishbone"
        (wishbone_marker_trajectory adata markers fs rf s ax del).adata.uns
      = some (UnsVal.table del.trunk) ∧
    List.lookup "branch1_wishbone"
        (wishbone_marker_trajectory adata markers fs rf s ax del).adata.uns
      = some (UnsVal.table del.branch1) ∧
    List.lookup "branch2_wishbone"
        (wishbone_marker_trajectory adata markers fs rf s ax del).adata.uns
      = some (UnsVal.table del.branch2) ∧
    (∀ k, k ≠ "trunk_wishbone" → k ≠ "branch1_wishbone" → k ≠ "branch2_wishbone" →
      List.lookup k (wishbone_marker_trajectory adata markers fs rf s ax del).adata.uns
        = List.lookup k adata.uns) ∧
    (∀ k v, List.lookup k adata.uns = some v →
      ∃ v', List.lookup k
        (wishbone_marker_trajectory adata markers fs rf s ax del).adata.uns = some v') ∧
    (wishbone_marker_trajectory adata markers fs rf s ax del).adata.obs = adata.obs ∧
    (wishbone_marker_trajectory adata markers fs rf s ax del).adata.obsm = adata.obsm := by
  have hpost : (wishbone_marker_trajectory adata markers fs rf s ax del).adata
      = AnnData.mk adata.obsm adata.obs
          (setUns (setUns (setUns adata.uns
              "trunk_wishbone" (UnsVal.table del.trunk))
            "branch1_wishbone" (UnsVal.table del.branch1))
            "branch2_wishbone" (UnsVal.table del.branch2)) := rfl
  rw [hpost]
  refine ⟨?_, ?_, ?_, ?_, ?_, rfl, rfl⟩
  · rw [lookup_setUns_ne _ _ _ _ (by decide), lookup_setUns_ne _ _ _ _ (by decide),
      lookup_setUns_self]
  · rw [lookup_setUns_ne _ _ _ _ (by decide), lookup_setUns_self]
  · rw [lookup_setUns_self]
  · intro k h1 h2 h3
    rw [lookup_setUns_ne _ _ _ _ h3, lookup_setUns_ne _ _ _ _ h2,
      lookup_setUns_ne _ _ _ _ h1]
  · intro k v hkv
    by_cases h3 : k = "branch2_wishbone"
    · subst h3
      exact ⟨UnsVal.table del.branch2, lookup_setUns_self _ _ _⟩
    · rw [lookup_setUns_ne _ _ _ _ h3]
      by_cases h2 : k = "branch1_wishbone"
      · subst h2
        exact ⟨UnsVal.table del.branch1, lookup_setUns_self _ _ _⟩
      · rw [lookup_setUns_ne _ _ _ _ h2]
        by_cases h1 : k = "trunk_wishbone"
        · subst h1
          exact ⟨UnsVal.table del.trunk, lookup_setUns_self _ _ _⟩
        · rw [lookup_setUns_ne _ _ _ _ h1]
          exact ⟨v, hkv⟩

/-- C9 witness: at a concrete container holding an unrelated key `"other"`,
the call keeps `"other"` intact and stores the trunk table. -/
theorem c9_wishbone_uns_writes_witness :
    List.lookup "other"
        (wishbone_marker_trajectory (AnnData.mk [] [] [("other", UnsVal.str "v")])
          ["m"] none false false none (TrajTables.mk [] [] [])).adata.uns
      = some (UnsVal.str "v") ∧
    List.lookup "trunk_wishbone"
        (wishbone_marker_trajectory (AnnData.mk [] [] [("other", UnsVal.str "v")])
          ["m"] none false false none (TrajTables.mk [] [] [])).adata.uns
      = some (UnsVal.table []) :=
  have h := c9_wishbone_uns_writes (AnnData.mk [] [] [("other", UnsVal.str "v")])
    ["m"] none false false none (TrajTables.mk [] [] [])
  ⟨(h.2.2.2.1 "other" (by decide) (by decide) (by decide)).trans rfl, h.1⟩

/-- C10: when the designated time-point attribute has exactly one distinct
value, `harmony_timeseries` fails: `plt.subplots(1, 1)` yields a bare axes
object and the loop's `axes[i]` raises `TypeError` instead of rendering a
single panel. -/
theorem c10_single_timepoint_error
    (adata : AnnData) (tpName : String) (col : List ColorElem) (s rf : Bool)
    (hu : List.lookup "harmony_timepoint_var" adata.uns = some (UnsVal.str tpName))
    (hc : List.lookup tpName adata.obs = some col)
    (h1 : (uniqueFirstSeen col).length = 1) :
    harmony_timeseries adata s rf
      = Except.error (PyError.typeError "Axes object is not subscriptable") := by
  simp [harmony_timeseries, hu, hc, h1]

/-- C10 witness: a concrete container whose time-point column has the single
distinct value `"t0"`. -/
theorem c10_single_timepoint_error_witness :
    List.lookup "harmony_timepoint_var"
        (AnnData.mk [] [("tp", [ColorElem.s "t0", ColorElem.s "t0"])]
          [("harmony_timepoint_var", UnsVal.str "tp")]).uns = some (UnsVal.str "tp") ∧
    List.lookup "tp"
        (AnnData.mk [] [("tp", [ColorElem.s "t0", ColorElem.s "t0"])]
          [("harmony_timepoint_var", UnsVal.str "tp")]).obs
      = some [ColorElem.s "t0", ColorElem.s "t0"] ∧
    (uniqueFirstSeen [ColorElem.s "t0", ColorElem.s "t0"]).length = 1 ∧
    harmony_timeseries
        (AnnData.mk [] [("tp", [ColorElem.s "t0", ColorElem.s "t0"])]
          [("harmony_timepoint_var", UnsVal.str "tp")]) false false
      = Except.error (PyError.typeError "Axes object is not subscriptable") :=
  ⟨rfl, rfl, rfl,
    c10_single_timepoint_error
      (AnnData.mk [] [("tp", [ColorElem.s "t0", ColorElem.s "t0"])]
        [("harmony_timepoint_var", UnsVal.str "tp")]) "tp"
      [ColorElem.s "t0", ColorElem.s "t0"] false false rfl rfl rfl⟩

/-- C1: for both the multi-panel time-series renderer and the trajectory
delegator, the display contract is a tri-state precedence: if `return_fig` is
true the figure is returned regardless of `show`; otherwise if `show` is true
nothing is returned; otherwise the axes (array of axes for the renderer) are
returned. -/
theorem c1_display_contract_tristate
    (adata : AnnData) (s rf : Bool) (panels : List PanelCall) (ret : HarmonyRet)
    (adata2 : AnnData) (markers : List String) (fs : Option (Rat × Rat))
    (ax : Option Nat) (del : TrajTables)
    (h : harmony_timeseries adata s rf = Except.ok (panels, ret)) :
    ((rf = true → ret = HarmonyRet.figure) ∧
      (rf = false → s = true → ret = HarmonyRet.nothing) ∧
      (rf = false → s = false → ∃ n, ret = HarmonyRet.axesArr n)) ∧
    (wishbone_marker_trajectory adata2 markers fs rf s ax del).ret
      = (if rf then WbRet.figure else if s then WbRet.nothing else WbRet.axes) := by
  constructor
  · simp only [harmony_timeseries] at h
    repeat' split at h
    all_goals simp only [reduceCtorEq, Except.ok.injEq, Prod.mk.injEq] at h
    all_goals obtain ⟨hp, hr⟩ := h
    · exact ⟨fun _ => hr.symm, by simp_all, by simp_all⟩
    · exact ⟨by simp_all, fun _ hs => by simp_all, by simp_all⟩
    · exact ⟨by simp_all, by simp_all, fun _ _ => ⟨_, hr.symm⟩⟩
  · simp only [wishbone_marker_trajectory]

/-- C1 witness: a concrete renderer run with `return_fig = true` and
`show = true` returns the figure, and a concrete delegator call with the same
flags also yields the figure. -/
theorem c1_display_contract_tristate_witness :
    ((true = true → HarmonyRet.figure = HarmonyRet.figure) ∧
      (true = false → true = true → HarmonyRet.figure = HarmonyRet.nothing) ∧
      (true = false → true = false → ∃ n, HarmonyRet.figure = HarmonyRet.axesArr n)) ∧
    (wishbone_marker_trajectory (AnnData.mk [] [] []) [] none true true none
        (TrajTables.mk [] [] [])).ret
      = (if true then WbRet.figure else if true then WbRet.nothing else WbRet.axes) :=
  c1_display_contract_tristate
    (AnnData.mk [] [("tp", [ColorElem.s "a", ColorElem.s "b"])]
      [("harmony_timepoint_var", UnsVal.str "tp")]) true true
    [PanelCall.mk "harmony" "tp" (ColorElem.s "a") (ColorElem.s "a") false 0 "none" true,
      PanelCall.mk "harmony" "tp" (ColorElem.s "b") (ColorElem.s "b") false 1 "none" true]
    HarmonyRet.figure (AnnData.mk [] [] []) [] none none (TrajTables.mk [] [] []) rfl

/-- C6: in `sam`, whenever the resolved color value is not an
`ndarray`/`list` (a literal string color, a tuple, a bare scalar, or no color
at all), no colorbar is drawn even though the colorbar option is requested as
true — either the flag is forced off (lines 240-241) or the call fails before
reaching any colorbar. -/
theorem c6_nonarray_color_no_colorbar
    (adata : AnnData) (p : ProjArg) (c : CVal) (a : Option Nat)
    (h : isArrOrList (resolveC adata c) = false) :
    (sam adata p c a true).1.colorbars = [] := by
  cases hp : resolveProjection adata p with
  | error e => simp [sam, hp]
  | ok dt =>
    cases c with
    | pynone => simp [sam, hp]
    | num v => simp [sam, hp, resolveC, getitem0]
    | tup v =>
      cases v with
      | nil => simp [sam, hp, resolveC, getitem0]
      | cons x xs => simp [sam, hp, resolveC, getitem0]
    | arr l => simp [resolveC, isArrOrList] at h
    | str nm =>
      cases hl : List.lookup nm adata.obs with
      | some col =>
        simp only [resolveC, hl, isArrOrList] at h
        exact absurd h (by decide)
      | none =>
        cases hnd : nm.data with
        | nil => simp [sam, hp, resolveC, hl, getitem0, hnd]
        | cons ch chs => simp [sam, hp, resolveC, hl, getitem0, hnd]

/-- C6 witness: a concrete call with a tuple (constant RGB) color and the
colorbar requested draws no colorbar. -/
theorem c6_nonarray_color_no_colorbar_witness :
    isArrOrList (resolveC (AnnData.mk [("X_umap", [((0 : Int), (0 : Int))])] [] [])
        (CVal.tup [1, 0, 0])) = false ∧
    (sam (AnnData.mk [("X_umap", [((0 : Int), (0 : Int))])] [] [])
        (ProjArg.key "X_umap") (CVal.tup [1, 0, 0]) none true).1.colorbars = [] :=
  ⟨rfl, c6_nonarray_color_no_colorbar
    (AnnData.mk [("X_umap", [((0 : Int), (0 : Int))])] [] [])
    (ProjArg.key "X_umap") (CVal.tup [1, 0, 0]) none rfl⟩

/-- C7: for a numeric (non-string-typed) color array, `sam` never runs the
categorical encoding step: the single scatter call receives the color array
unchanged, and no scatter call ever receives integer codes. -/
theorem c7_numeric_array_passthrough
    (adata : AnnData) (dt : List (Int × Int)) (x0 : ColorElem)
    (rest : List ColorElem) (a : Option Nat) (cb : Bool)
    (h : elemIsStr x0 = false) :
    (sam adata (ProjArg.arr dt) (CVal.arr (x0 :: rest)) a cb).1.scatters
        = [ScatterCall.mk dt (ScatterColor.passthrough (CVal.arr (x0 :: rest)))] ∧
      ∀ sc ∈ (sam adata (ProjArg.arr dt) (CVal.arr (x0 :: rest)) a cb).1.scatters,
        ∀ i, sc.color ≠ ScatterColor.codes i := by
  have hs : (sam adata (ProjArg.arr dt) (CVal.arr (x0 :: rest)) a cb).1.scatters
      = [ScatterCall.mk dt (ScatterColor.passthrough (CVal.arr (x0 :: rest)))] := by
    simp [sam, resolveProjection, resolveC, getitem0, h]
  refine ⟨hs, ?_⟩
  rw [hs]
  intro sc hsc i
  rw [List.mem_singleton] at hsc
  subst hsc
  simp

/-- C7 witness: a concrete numeric color array is passed through unchanged. -/
theorem c7_numeric_array_passthrough_witness :
    elemIsStr (ColorElem.n 3) = false ∧
    (sam (AnnData.mk [] [] []) (ProjArg.arr [((0 : Int), (1 : Int))])
        (CVal.arr [ColorElem.n 3, ColorElem.n 5]) none true).1.scatters
      = [ScatterCall.mk [((0 : Int), (1 : Int))]
          (ScatterColor.passthrough (CVal.arr [ColorElem.n 3, ColorElem.n 5]))] :=
  ⟨rfl, (c7_numeric_array_passthrough (AnnData.mk [] [] []) [((0 : Int), (1 : Int))]
    (ColorElem.n 3) [ColorElem.n 5] none true rfl).1⟩

/-- C8: every successful `sam` call returns the axes used for drawing: the
caller-supplied axes when given, otherwise the freshly created axes; this
holds for every color argument (so in all three color branches). -/
theorem c8_sam_returns_axes_used
    (adata : AnnData) (p : ProjArg) (c : CVal) (a : Option Nat) (cb : Bool)
    (r : AxesUsed) (h : (sam adata p c a cb).2 = Except.ok r) :
    r = axesOf a ∧ (a = none → r = AxesUsed.fresh) ∧
      (∀ n, a = some n → r = AxesUsed.caller n) := by
  have hr : r = axesOf a := by
    simp only [sam] at h
    repeat' split at h
    all_goals simp_all
  exact ⟨hr, fun ha => by rw [hr, ha]; rfl, fun n ha => by rw [hr, ha]; rfl⟩

/-- C8 witness: a concrete successful call without caller axes returns the
fresh axes, and one with caller axes returns them. -/
theorem c8_sam_returns_axes_used_witness :
    (sam (AnnData.mk [] [] []) (ProjArg.arr [((2 : Int), (3 : Int))]) CVal.pynone
        (some 7) true).2 = Except.ok (AxesUsed.caller 7) ∧
    AxesUsed.caller 7 = axesOf (some 7) :=
  ⟨rfl, (c8_sam_returns_axes_used (AnnData.mk [] [] [])
    (ProjArg.arr [((2 : Int), (3 : Int))]) CVal.pynone (some 7) true
    (AxesUsed.caller 7) rfl).1⟩

/-- C4 counterexample: with the empty string as color specification, the
`obs` lookup failure is suppressed, but the string is NOT then used as the
literal color value: the call fails with an `IndexError` when line 220
inspects `c[0]`, and no scatter call is made, so the claim is false for this
input. -/
theorem c4_counterexample_empty_string :
    sam (AnnData.mk [("X_umap", [((0 : Int), (0 : Int))])] [] [])
        (ProjArg.key "X_umap") (CVal.str "") none true
      = (Trace.mk 1 [] [],
        Except.error (PyError.indexError "string index out of range")) := rfl

/-- C4 (amended): for every nonempty string color specification whose lookup
in the observation mapping fails, the failure is silently suppressed and the
string itself is passed to the scatter primitive as the literal color value;
the call succeeds and no error is raised.  (For the empty string the lookup
failure is equally suppressed, but the call then fails with an `IndexError`
from inspecting the first character, before any scatter.) -/
theorem c4_failed_lookup_literal_fallback
    (adata : AnnData) (dt : List (Int × Int)) (name : String) (a : Option Nat)
    (cb : Bool) (hmiss : List.lookup name adata.obs = none) (hne : name ≠ "") :
    sam adata (ProjArg.arr dt) (CVal.str name) a cb
      = (Trace.mk (figsOf a)
          [ScatterCall.mk dt (ScatterColor.passthrough (CVal.str name))] [],
        Except.ok (axesOf a)) := by
  obtain ⟨ch, chs, hd⟩ : ∃ ch chs, name.data = ch :: chs := by
    cases hnd : name.data with
    | nil =>
      exfalso
      apply hne
      cases name with
      | mk d =>
        simp at hnd
        simp [hnd]
    | cons ch chs => exact ⟨ch, chs, rfl⟩
  simp [sam, resolveProjection, resolveC, hmiss, getitem0, hd]

/-- C4 witness: the amended statement at the literal color string `"red"`
with an empty observation mapping. -/
theorem c4_failed_lookup_literal_fallback_witness :
    List.lookup "red" (AnnData.mk [] [] []).obs = none ∧
    "red" ≠ "" ∧
    sam (AnnData.mk [] [] []) (ProjArg.arr [((1 : Int), (2 : Int))])
        (CVal.str "red") none true
      = (Trace.mk 1 [ScatterCall.mk [((1 : Int), (2 : Int))]
          (ScatterColor.passthrough (CVal.str "red"))] [],
        Except.ok AxesUsed.fresh) :=
  ⟨rfl, by decide,
    c4_failed_lookup_literal_fallback (AnnData.mk [] [] []) [((1 : Int), (2 : Int))]
      "red" none true rfl (by decide)⟩

/-- C5 counterexample: for a container whose time-point attribute has exactly
one distinct value, `harmony_timeseries` does not allocate one subplot and
render one panel — it fails with a `TypeError` (bare axes object from
`plt.subplots(1, 1)` is not subscriptable), so the claim is false for such
containers. -/
theorem c5_counterexample_single_value :
    harmony_timeseries
        (AnnData.mk [] [("tp", [ColorElem.s "t0"])]
          [("harmony_timepoint_var", UnsVal.str "tp")]) false false
      = Except.error (PyError.typeError "Axes object is not subscriptable") := rfl

/-- C5 (amended): for every container whose metadata names a categorical
time-point attribute with at least two distinct values, `harmony_timeseries`
enumerates the distinct values in first-seen order, allocates exactly one
subplot per distinct value, and renders one panel per value restricted to
that value (via the `groups` filter), with the legend suppressed and the
axis decorations removed. -/
theorem c5_multipanel_per_timepoint
    (adata : AnnData) (tpName : String) (col : List ColorElem) (s rf : Bool)
    (hu : List.lookup "harmony_timepoint_var" adata.uns = some (UnsVal.str tpName))
    (hc : List.lookup tpName adata.obs = some col)
    (h2 : 2 ≤ (uniqueFirstSeen col).length) :
    ∃ panels ret,
      harmony_timeseries adata s rf = Except.ok (panels, ret) ∧
      panels.length = (uniqueFirstSeen col).length ∧
      panels.map PanelCall.groups = uniqueFirstSeen col ∧
      (uniqueFirstSeen col).Nodup ∧
      (∀ v, v ∈ uniqueFirstSeen col ↔ v ∈ col) ∧
      (uniqueFirstSeen col).Sublist col ∧
      panels.map PanelCall.axId = List.range (uniqueFirstSeen col).length ∧
      ∀ p ∈ panels, p.basis = "harmony" ∧ p.color = tpName ∧ p.title = p.groups ∧
        p.showArg = false ∧ p.legendLoc = "none" ∧ p.axisOff = true := by
  have h0 : ¬(uniqueFirstSeen col).length = 0 := by omega
  have h1 : ¬(uniqueFirstSeen col).length = 1 := by omega
  have hrun : harmony_timeseries adata s rf
      = Except.ok ((uniqueFirstSeen col).enum.map (fun p =>
          PanelCall.mk "harmony" tpName p.2 p.2 false p.1 "none" true),
        if rf then HarmonyRet.figure
        else if s then HarmonyRet.nothing
        else HarmonyRet.axesArr (uniqueFirstSeen col).length) := by
    simp [harmony_timeseries, hu, hc, h0, h1]
  refine ⟨_, _, hrun, ?_, ?_, nodup_uniqueFirstSeen col,
    fun v => mem_uniqueFirstSeen col v, sublist_uniqueFirstSeen col, ?_, ?_⟩
  · rw [List.length_map, List.enum_length]
  · rw [List.map_map]
    exact List.enum_map_snd (uniqueFirstSeen col)
  · rw [List.map_map]
    exact List.enum_map_fst (uniqueFirstSeen col)
  · intro p hp
    rw [List.mem_map] at hp
    obtain ⟨q, hq, rfl⟩ := hp
    exact ⟨rfl, rfl, rfl, rfl, rfl, rfl⟩

/-- C5 witness: the spec scenario — three distinct values in first-seen order
`["t1", "t2", "t0"]` (not sorted order) give three panels in that order. -/
theorem c5_multipanel_per_timepoint_witness :
    2 ≤ (uniqueFirstSeen [ColorElem.s "t1", ColorElem.s "t2", ColorElem.s "t1",
        ColorElem.s "t0"]).length ∧
    uniqueFirstSeen [ColorElem.s "t1", ColorElem.s "t2", ColorElem.s "t1",
        ColorElem.s "t0"]
      = [ColorElem.s "t1", ColorElem.s "t2", ColorElem.s "t0"] ∧
    (∃ panels ret,
      harmony_timeseries
          (AnnData.mk [] [("tp", [ColorElem.s "t1", ColorElem.s "t2",
            ColorElem.s "t1", ColorElem.s "t0"])]
            [("harmony_timepoint_var", UnsVal.str "tp")]) false false
        = Except.ok (panels, ret) ∧
      panels.length = (uniqueFirstSeen [ColorElem.s "t1", ColorElem.s "t2",
        ColorElem.s "t1", ColorElem.s "t0"]).length ∧
      panels.map PanelCall.groups = uniqueFirstSeen [ColorElem.s "t1",
        ColorElem.s "t2", ColorElem.s "t1", ColorElem.s "t0"] ∧
      (uniqueFirstSeen [ColorElem.s "t1", ColorElem.s "t2", ColorElem.s "t1",
        ColorElem.s "t0"]).Nodup ∧
      (∀ v, v ∈ uniqueFirstSeen [ColorElem.s "t1", ColorElem.s "t2",
        ColorElem.s "t1", ColorElem.s "t0"] ↔ v ∈ [ColorElem.s "t1",
        ColorElem.s "t2", ColorElem.s "t1", ColorElem.s "t0"]) ∧
      (uniqueFirstSeen [ColorElem.s "t1", ColorElem.s "t2", ColorElem.s "t1",
        ColorElem.s "t0"]).Sublist [ColorElem.s "t1", ColorElem.s "t2",
        ColorElem.s "t1", ColorElem.s "t0"] ∧
      panels.map PanelCall.axId = List.range (uniqueFirstSeen [ColorElem.s "t1",
        ColorElem.s "t2", ColorElem.s "t1", ColorElem.s "t0"]).length ∧
      ∀ p ∈ panels, p.basis = "harmony" ∧ p.color = "tp" ∧ p.title = p.groups ∧
        p.showArg = false ∧ p.legendLoc = "none" ∧ p.axisOff = true) :=
  ⟨by decide, by decide,
    c5_multipanel_per_timepoint
      (AnnData.mk [] [("tp", [ColorElem.s "t1", ColorElem.s "t2",
        ColorElem.s "t1", ColorElem.s "t0"])]
        [("harmony_timepoint_var", UnsVal.str "tp")]) "tp"
      [ColorElem.s "t1", ColorElem.s "t2", ColorElem.s "t1", ColorElem.s "t0"]
      false false rfl rfl (by decide)⟩

/-- C2: in `sam`, when the color array is string-typed and a colorbar is
requested, exactly one colorbar is drawn; its ticks are exactly the distinct
integer codes of the categorical encoding (no duplicates, same set as the
codes), and for each tick the label is the original string taken from the
first row bearing that code in the original row order. -/
theorem c2_sam_categorical_colorbar
    (adata : AnnData) (dt : List (Int × Int)) (x0 : ColorElem)
    (rest : List ColorElem) (a : Option Nat) (hs : elemIsStr x0 = true) :
    ∃ ticks labels,
      (sam adata (ProjArg.arr dt) (CVal.arr (x0 :: rest)) a true).1.colorbars
        = [CbarSpec.categorical ticks labels] ∧
      ticks.Nodup ∧
      (∀ t, t ∈ ticks ↔ t ∈ convert_annotations (x0 :: rest)) ∧
      labels.length = ticks.length ∧
      (∀ k, k < ticks.length →
        ∃ j, j < (convert_annotations (x0 :: rest)).length ∧
          (convert_annotations (x0 :: rest)).getD j 0 = ticks.getD k 0 ∧
          (∀ j', j' < j →
            (convert_annotations (x0 :: rest)).getD j' 0 ≠ ticks.getD k 0) ∧
          labels.getD k (ColorElem.s "")
            = (x0 :: rest).getD j (ColorElem.s "")) := by
  refine ⟨npUnique (fun u v => decide (u ≤ v)) (convert_annotations (x0 :: rest)),
    ((npUnique (fun u v => decide (u ≤ v)) (convert_annotations (x0 :: rest))).map
        (firstIdx (convert_annotations (x0 :: rest)))).map
      (fun j => (x0 :: rest).getD j (ColorElem.s "")),
    ?_, nodup_npUnique _ _, fun t => mem_npUnique _ _ t, ?_, ?_⟩
  · simp [sam, resolveProjection, resolveC, getitem0, hs, npUniqueWithIndex]
  · rw [List.length_map, List.length_map]
  · intro k hk
    have htu : (npUnique (fun u v => decide (u ≤ v))
        (convert_annotations (x0 :: rest))).getD k 0
        ∈ npUnique (fun u v => decide (u ≤ v)) (convert_annotations (x0 :: rest)) := by
      rw [List.getD_eq_getElem _ 0 hk]
      exact List.getElem_mem hk
    have hti : (npUnique (fun u v => decide (u ≤ v))
        (convert_annotations (x0 :: rest))).getD k 0
        ∈ convert_annotations (x0 :: rest) := (mem_npUnique _ _ _).mp htu
    refine ⟨firstIdx (convert_annotations (x0 :: rest))
        ((npUnique (fun u v => decide (u ≤ v))
          (convert_annotations (x0 :: rest))).getD k 0),
      firstIdx_lt_length hti, getD_firstIdx hti 0,
      fun j' hj' => getD_ne_of_lt_firstIdx 0 hj', ?_⟩
    have hk2 : k < ((npUnique (fun u v => decide (u ≤ v))
        (convert_annotations (x0 :: rest))).map
          (firstIdx (convert_annotations (x0 :: rest)))).length := by
      simpa using hk
    rw [getD_map_of_lt (fun j => (x0 :: rest).getD j (ColorElem.s "")) _ hk2
        (ColorElem.s "") 0,
      getD_map_of_lt (firstIdx (convert_annotations (x0 :: rest))) _ hk 0 0]

/-- C2 witness: the array `["B", "A", "B"]` encodes to codes `[1, 0, 1]`;
the colorbar has ticks `[0, 1]` with labels `["A", "B"]`, each label taken
from the first row carrying that code. -/
theorem c2_sam_categorical_colorbar_witness :
    elemIsStr (ColorElem.s "B") = true ∧
    (∃ ticks labels,
      (sam (AnnData.mk [] [] []) (ProjArg.arr [((0 : Int), (0 : Int))])
          (CVal.arr [ColorElem.s "B", ColorElem.s "A", ColorElem.s "B"]) none
          true).1.colorbars
        = [CbarSpec.categorical ticks labels] ∧
      ticks.Nodup ∧
      (∀ t, t ∈ ticks ↔ t ∈ convert_annotations [ColorElem.s "B", ColorElem.s "A",
        ColorElem.s "B"]) ∧
      labels.length = ticks.length ∧
      (∀ k, k < ticks.length →
        ∃ j, j < (convert_annotations [ColorElem.s "B", ColorElem.s "A",
            ColorElem.s "B"]).length ∧
          (convert_annotations [ColorElem.s "B", ColorElem.s "A",
            ColorElem.s "B"]).getD j 0 = ticks.getD k 0 ∧
          (∀ j', j' < j →
            (convert_annotations [ColorElem.s "B", ColorElem.s "A",
              ColorElem.s "B"]).getD j' 0 ≠ ticks.getD k 0) ∧
          labels.getD k (ColorElem.s "")
            = [ColorElem.s "B", ColorElem.s "A", ColorElem.s "B"].getD j
                (ColorElem.s ""))) :=
  ⟨rfl, c2_sam_categorical_colorbar (AnnData.mk [] [] []) [((0 : Int), (0 : Int))]
    (ColorElem.s "B") [ColorElem.s "A", ColorElem.s "B"] none rfl⟩
